import Mathlib

/-!
Verification of the "Engage Agents" repository (LUKSO engagement-agent dApp).

The development shallowly embeds the contract-interaction and frontend logic of the
repository: the keccak-based selector derivation of `scripts/configureKeyManager.js`,
the ethers-v6 library functions the code calls (`parseUnits`, `isAddress`, ABI
decoding), the frontend `App.tsx` logic (`AVAILABLE_ACTIONS`, `addLog`,
`fetchMetrics`, `execAction`), the `BadgeNFT.mint` contract function, and — where the
backend Python sources are not part of the repository snapshot — models of the policy
selection and the executor retry loop taken from the specification text.

Machine integers are `Nat` with explicit reduction modulo 2^64 where the source
semantics (keccak lanes) overflow; fallible code returns `Except`.
-/

/-! ## Keccak-256 (the hash behind `ethers.id` and EIP-55 checksums)

Executable keccak-256 with rate 1088 and the 0x01 domain byte, exactly the variant
used by Ethereum tooling. Lanes are `Nat` values kept below 2^64 by explicit `% w64`.
-/

/-- 2^64, the keccak lane modulus. -/
def w64 : Nat := 18446744073709551616

/-- Rotate a 64-bit lane left by `n` (0 ≤ n < 64 in all uses). -/
def rotl64 (x n : Nat) : Nat := ((x <<< n) % w64) ||| (x >>> (64 - n))

/-- Index of lane (x, y) in the 25-lane state (row-major, x fastest). -/
def laneIdx (x y : Nat) : Nat := x % 5 + 5 * (y % 5)

/-- One step of the 8-bit LFSR of FIPS 202 (x^8 + x^6 + x^5 + x^4 + 1). -/
def lfsrStep (r : Nat) : Nat := ((r <<< 1) ^^^ (0x71 * (r >>> 7))) % 256

/-- Bit rc(t) of FIPS 202: the low bit of the LFSR register after t steps. -/
def rcBit (t : Nat) : Nat := (lfsrStep^[t] 1) % 2

/-- Round constant of round ir, assembled from rc bits at positions 2^j - 1. -/
def roundConstant (ir : Nat) : Nat :=
  (List.range 7).foldl (fun acc j => acc + rcBit (j + 7 * ir) * 2 ^ (2 ^ j - 1)) 0

/-- The 24 keccak-f round constants, generated per FIPS 202. -/
def keccakRC : List Nat := (List.range 24).map roundConstant

/-- The rho rotation offsets laid out with `laneIdx`, generated by the FIPS 202
coordinate walk: start at lane (1,0), rotate by the t-th triangular number mod 64,
and move (x, y) to (y, 2x + 3y mod 5). -/
def rhoOffsets : List Nat :=
  let f := fun (s : Nat × Nat × List Nat) (t : Nat) =>
    let x := s.1
    let y := s.2.1
    let acc := s.2.2
    (y, (2 * x + 3 * y) % 5, acc.set (laneIdx x y) (((t + 1) * (t + 2) / 2) % 64))
  ((List.range 24).foldl f (1, 0, List.replicate 25 0)).2.2

/-- Keccak theta step. -/
def theta (st : List Nat) : List Nat :=
  let c : Nat → Nat := fun x =>
    st.getD (laneIdx x 0) 0 ^^^ st.getD (laneIdx x 1) 0 ^^^ st.getD (laneIdx x 2) 0 ^^^
    st.getD (laneIdx x 3) 0 ^^^ st.getD (laneIdx x 4) 0
  let d : Nat → Nat := fun x => c ((x + 4) % 5) ^^^ rotl64 (c ((x + 1) % 5)) 1
  (List.range 25).map fun i => st.getD i 0 ^^^ d (i % 5)

/-- Keccak rho and pi steps combined: output lane (x, y) is the rotated source lane. -/
def rhoPi (st : List Nat) : List Nat :=
  (List.range 25).map fun i =>
    let xo := i % 5
    let yo := i / 5
    let xs := (3 * ((yo + 15 - 3 * xo) % 5)) % 5
    let ys := xo
    rotl64 (st.getD (laneIdx xs ys) 0) (rhoOffsets.getD (laneIdx xs ys) 0)

/-- Keccak chi step; 64-bit complement is xor with the all-ones lane. -/
def chi (st : List Nat) : List Nat :=
  (List.range 25).map fun i =>
    let x := i % 5
    let y := i / 5
    st.getD (laneIdx x y) 0 ^^^
      ((st.getD (laneIdx (x + 1) y) 0 ^^^ (w64 - 1)) &&& st.getD (laneIdx (x + 2) y) 0)

/-- Keccak iota step: xor the round constant into lane 0. -/
def iota (rc : Nat) (st : List Nat) : List Nat :=
  match st with
  | [] => []
  | a :: rest => (a ^^^ rc) :: rest

/-- One full keccak-f[1600] permutation (24 rounds). -/
def keccakF (st : List Nat) : List Nat :=
  keccakRC.foldl (fun s rc => iota rc (chi (rhoPi (theta s)))) st

/-- Multi-rate padding with the 0x01 domain byte (Ethereum keccak-256), rate 136 bytes. -/
def keccakPad (msg : List Nat) : List Nat :=
  let r := 136
  let padLen := r - msg.length % r
  if padLen == 1 then msg ++ [0x81]
  else msg ++ [0x01] ++ List.replicate (padLen - 2) 0 ++ [0x80]

/-- Little-endian interpretation of up to 8 bytes as one lane. -/
def bytesToLane (bs : List Nat) : Nat :=
  bs.foldr (fun b acc => b + 256 * acc) 0

/-- Little-endian 8-byte expansion of one lane. -/
def laneToBytes (n : Nat) : List Nat :=
  (List.range 8).map fun i => (n >>> (8 * i)) % 256

/-- Xor a 136-byte rate block into the state (lanes 17–24 are the untouched capacity). -/
def xorBlock (st : List Nat) (block : List Nat) : List Nat :=
  (List.range 25).map fun i =>
    st.getD i 0 ^^^ bytesToLane ((block.drop (8 * i)).take 8)

/-- Absorb a padded message, one 136-byte block per fuel step (fuel-indexed so that the
definition reduces inside the kernel). -/
def absorb : Nat → List Nat → List Nat → List Nat
  | 0, st, _ => st
  | _, st, [] => st
  | fuel + 1, st, bytes =>
      absorb fuel (keccakF (xorBlock st (bytes.take 136))) (bytes.drop 136)

/-- keccak-256 of a byte string, as the 32-byte digest. -/
def keccak256 (msg : List Nat) : List Nat :=
  let padded := keccakPad msg
  let final := absorb (padded.length / 136) (List.replicate 25 0) padded
  ((final.take 4).map laneToBytes).flatten

/-- Lowercase hex digit of a value below 16. -/
def hexDigit (n : Nat) : Char :=
  if n < 10 then Char.ofNat (48 + n) else Char.ofNat (87 + n)

/-- Lowercase hex rendering of a byte string. -/
def bytesToHex (bs : List Nat) : String :=
  String.mk (bs.foldr (fun b acc => hexDigit (b / 16) :: hexDigit (b % 16) :: acc) [])

/-- Byte encoding of a string. All strings hashed by the repository (function
signatures, hex address bodies) are ASCII, where UTF-8 bytes coincide with code
points. -/
def asciiBytes (s : String) : List Nat := s.data.map Char.toNat

/-! ## ethers v6 library models

The frontend and the scripts call into the ethers v6 library. The functions used —
`id`, `isAddress`/`getAddress`, `AbiCoder.decode` on `bytes4`, and
`parseUnits`/`FixedNumber.fromString` — are modelled here from the published ethers
v6 sources (the repository imports them v6-style: top-level `JsonRpcProvider`,
`isAddress`, `parseUnits`).
-/

/-- `ethers.id(text)`: the 0x-prefixed lowercase hex keccak-256 of the UTF-8 text. -/
def ethersId (s : String) : String := "0x" ++ bytesToHex (keccak256 (asciiBytes s))

/-- JavaScript `s.slice(a, b)` for 0 ≤ a ≤ b. -/
def jsSlice (s : String) (a b : Nat) : String :=
  String.mk ((s.data.take b).drop a)

/-- Is this character a hex digit. -/
def isHexChar (c : Char) : Bool :=
  c.isDigit || (97 ≤ c.toNat && c.toNat ≤ 102) || (65 ≤ c.toNat && c.toNat ≤ 70)

/-- Numeric value of one hex digit. -/
def hexCharVal (c : Char) : Nat :=
  if c.isDigit then c.toNat - 48
  else if 97 ≤ c.toNat then c.toNat - 87
  else c.toNat - 55

/-- Parse a 0x-prefixed even-length hex string into bytes (ethers `getBytes`). -/
def hexToBytes (s : String) : Option (List Nat) :=
  match s.data with
  | '0' :: 'x' :: body =>
      if body.all isHexChar ∧ body.length % 2 == 0 then
        some ((List.range (body.length / 2)).map fun i =>
          16 * hexCharVal (body.getD (2 * i) '0') + hexCharVal (body.getD (2 * i + 1) '0'))
      else none
  | _ => none

/-- Modelled from ethers v6 `AbiCoder.decode(["bytes4"], data)`: the fixed-bytes coder
reads one full 32-byte head word from the data and keeps its first 4 bytes; shorter
data makes the reader fail with a buffer-overrun (`data out-of-bounds`) error. -/
def abiDecodeBytes4 (dataHex : String) : Except String (List Nat) :=
  match hexToBytes dataHex with
  | none => .error "invalid BytesLike value"
  | some bytes =>
      if bytes.length < 32 then .error "data out-of-bounds"
      else .ok (bytes.take 4)

/-- The LSP7 transfer signature hashed in `configureKeyManager.js`. -/
def tokenTransferSignature : String := "transfer(address,address,uint256,bool,bytes)"

/-- The LSP8 transfer signature hashed in `configureKeyManager.js`. -/
def nftTransferSignature : String := "transfer(address,address,bytes32,bool,bytes)"

/-- `configureKeyManager.js`: the LSP7 selector expression
`getAbiCoder().decode(["bytes4"], id(sig).slice(0, 10))`. -/
def tokenTransferSelector : Except String (List Nat) :=
  abiDecodeBytes4 (jsSlice (ethersId tokenTransferSignature) 0 10)

/-- `configureKeyManager.js`: the LSP8 selector expression, same shape. -/
def nftTransferSelector : Except String (List Nat) :=
  abiDecodeBytes4 (jsSlice (ethersId nftTransferSignature) 0 10)

/-- The 4-byte selector the script intends: the first 4 bytes of the keccak-256 of
the canonical signature string (what `id(sig).slice(0, 10)` denotes). -/
def intendedSelector (sig : String) : List Nat :=
  (keccak256 (asciiBytes sig)).take 4

/-- EIP-55 checksum case for a 40-char lowercase hex address body: a nibble of the
keccak of the ASCII body at or above 8 upper-cases the letter at that position
(digits are unchanged by upper-casing). Modelled from ethers v6
`getChecksumAddress`. -/
def checksumBody (lower : List Char) : List Char :=
  let hashed := keccak256 (lower.map Char.toNat)
  (List.range 40).map fun i =>
    let b := hashed.getD (i / 2) 0
    let nib := if i % 2 == 0 then b / 16 else b % 16
    let c := lower.getD i '0'
    if 8 ≤ nib ∧ 97 ≤ c.toNat then Char.ofNat (c.toNat - 32) else c

/-- Lowercase a hex letter, keep digits. -/
def lowerHexChar (c : Char) : Char :=
  if 65 ≤ c.toNat ∧ c.toNat ≤ 70 then Char.ofNat (c.toNat + 32) else c

/-- Modelled from ethers v6 `isAddress`/`getAddress` for hex-form inputs: an optional
0x prefix, exactly 40 hex characters, and — only when the body mixes upper and lower
hex letters — a correct EIP-55 checksum. The ICAP (XE…) branch of `getAddress` is
omitted; the frontend only deals in 0x-form addresses. -/
def isAddress (s : String) : Bool :=
  let cs := s.data
  let body := if cs.take 2 = ['0', 'x'] then cs.drop 2 else cs
  if body.length = 40 ∧ body.all isHexChar then
    let hasUpper := body.any fun c => 65 ≤ c.toNat ∧ c.toNat ≤ 70
    let hasLower := body.any fun c => 97 ≤ c.toNat ∧ c.toNat ≤ 102
    if hasUpper ∧ hasLower then checksumBody (body.map lowerHexChar) = body else true
  else false

/-- Digits of a decimal string chunk, most significant first, as a `Nat`. -/
def natOfDigits (cs : List Char) : Nat :=
  cs.foldl (fun acc c => 10 * acc + (c.toNat - 48)) 0

/-- Split a character list at its first dot; `none` when a second dot exists (the
ethers fixed-number regex admits at most one). -/
def splitDot : List Char → Option (List Char × List Char)
  | [] => some ([], [])
  | c :: rest =>
      if c = '.' then
        if rest.contains '.' then none else some ([], rest)
      else
        match splitDot rest with
        | none => none
        | some (w, f) => some (c :: w, f)

/-- Modelled from ethers v6 `FixedNumber.fromString(value, \x7b decimals \x7d).value`:
the value must match the pattern `-?digits.digits` with at least one digit, the
fraction must not exceed `decimals` places, and the result is the value scaled by
10^decimals. The 512-bit width bound of the real implementation is not modelled;
every value considered here is far below it. -/
def fixedFromString (value : String) (decimals : Nat) : Except String Int :=
  let cs := value.data
  let (neg, rest) :=
    match cs with
    | '-' :: r => (true, r)
    | r => (false, r)
  match splitDot rest with
  | none => .error "invalid FixedNumber string value"
  | some (whole, frac) =>
      if whole.length + frac.length == 0 then .error "invalid FixedNumber string value"
      else if !(whole.all Char.isDigit && frac.all Char.isDigit) then
        .error "invalid FixedNumber string value"
      else if decimals < frac.length then .error "too many decimals"
      else
        let scaled : Nat :=
          natOfDigits whole * 10 ^ decimals + natOfDigits frac * 10 ^ (decimals - frac.length)
        .ok (if neg then -(scaled : Int) else (scaled : Int))

/-- The ethers v6 unit-name table; a string unit passed to `parseUnits` must be one of
these (index i meaning 3i decimals). -/
def unitNames : List String := ["wei", "kwei", "mwei", "gwei", "szabo", "finney", "ether"]

/-- Modelled from ethers v6 `parseUnits(value, unit)` with a string unit: the unit
must be one of the seven `unitNames`, otherwise the call fails with `invalid unit`;
a numeric unit (not the overload the frontend uses) would instead give the decimals
directly. -/
def parseUnits (value : String) (unit : String) : Except String Int :=
  match unitNames.findIdx? (fun u => u == unit) with
  | none => .error "invalid unit"
  | some i => fixedFromString value (3 * i)

/-! ## Frontend embedding (`App.tsx`)

The action table, the activity-log operation, the metrics fetch, and the
execute-action request construction, translated from the React component. React
state updates become explicit values: `addLog` is the function passed to `setLogs`,
the metrics fetch takes the chain response and the two `Math.random()` draws as
inputs, and `execAction` takes the form fields and the network outcome as inputs.
-/

/-- One entry of the frontend `AVAILABLE_ACTIONS` table. -/
structure ActionSpec where
  name : String
  requiresParams : List String
deriving DecidableEq, Repr

/-- The `AVAILABLE_ACTIONS` record of `App.tsx`: ordinal action ids 0–2 with display
names and required parameter lists. -/
def AVAILABLE_ACTIONS : Nat → Option ActionSpec
  | 0 => some ⟨"Make Post", ["content"]⟩
  | 1 => some ⟨"Follow Profile", ["target"]⟩
  | 2 => some ⟨"Reward Follower", ["target", "amount"]⟩
  | _ => none

/-- One frontend activity-log entry (`ActionLog` in `App.tsx`). -/
structure ActionLogEntry where
  id : String
  timestamp : Nat
  name : String
  status : String
  message : String
  txHash : Option String
deriving DecidableEq, Repr

/-- The `addLog` update of `App.tsx`: prepend the new entry and keep the first 50
(`[entry, ...logs].slice(0, 50)`). -/
def addLog (entry : ActionLogEntry) (logs : List ActionLogEntry) : List ActionLogEntry :=
  (entry :: logs).take 50

/-- The metrics held in frontend state (`ProfileMetrics` in `App.tsx`). -/
structure ProfileMetrics where
  followers : Nat
  postsCount : Nat
  engagementRate : ℚ
  profileName : String
deriving DecidableEq, Repr

/-- The chain data the metrics fetch actually reads: the decoded `LSP3Profile` name
and the `LSP12IssuedAssets[]` list. -/
structure ChainData where
  assets : Option (List String)
  profileName : Option String
deriving DecidableEq, Repr

/-- JavaScript `Number.toFixed(3)` coerced back to a number, modelled as rounding to
the nearest thousandth (the binary-float tie behavior is abstracted; no value in
this development sits on a tie). -/
def toFixed3 (q : ℚ) : ℚ := (round (q * 1000) : ℤ) / 1000

/-- The metrics constructed by `fetchMetrics` in `App.tsx`: the posts count is the
issued-assets length read on-chain, while followers and engagement are derived from
the two `Math.random()` draws (`r1`, `r2` ∈ [0,1)):
`followers = Math.floor(Math.random()*500)` and
`engagement = +(Math.random()*0.1).toFixed(3)`. -/
def fetchMetricsModel (chain : ChainData) (r1 r2 : ℚ) : ProfileMetrics :=
  { followers := (⌊r1 * 500⌋).toNat
    postsCount := (chain.assets.map List.length).getD 0
    engagementRate := toFixed3 (r2 * (1 / 10))
    profileName := chain.profileName.getD "Anonymous" }

/-- The JSON payload `execAction` posts to `/execute-action`. -/
structure ExecPayload where
  up_address : String
  action_id : Nat
  target_address : Option String := none
  post_content_cid : Option String := none
  reward_amount_wei : Option String := none
deriving DecidableEq, Repr

/-- The payload construction of `execAction` in `App.tsx`, up to the `axios.post`
call: look up the action, then for each required parameter either validate and add
it to the payload or throw (modelled as `Except.error`). The target must pass
`isAddress`, the content must be non-empty, and the amount goes through
`parseUnits(amount, "18").toString()`. An action id outside the table is not
representable here: the component dereferences the table entry before this code. -/
def buildPayload (address : String) (actionId : Nat) (target content amount : String) :
    Except String ExecPayload :=
  match AVAILABLE_ACTIONS actionId with
  | none => .error "unknown action"
  | some action =>
      (if action.requiresParams.contains "target" then
        if isAddress target then Except.ok (some target) else Except.error "Invalid target"
      else Except.ok none).bind fun tgt =>
      (if action.requiresParams.contains "content" then
        if content = "" then Except.error "Content required" else Except.ok (some content)
      else Except.ok none).bind fun cnt =>
      (if action.requiresParams.contains "amount" then
        (parseUnits amount "18").map fun amt => some (toString amt)
      else Except.ok none).map fun amtStr =>
      { up_address := address, action_id := actionId, target_address := tgt,
        post_content_cid := cnt, reward_amount_wei := amtStr }

/-- The HTTP submissions `execAction` performs: the single `axios.post` happens
exactly when payload construction did not throw. -/
def execActionRequests (address : String) (actionId : Nat)
    (target content amount : String) : List ExecPayload :=
  match buildPayload address actionId target content amount with
  | .error _ => []
  | .ok p => [p]

/-- The §3 ActionRequest validity invariant of the specification, for comparison with
the code: each required parameter present and individually valid — address-shaped
target, non-empty content, and an amount denominating a positive integer number of
wei (a decimal with at most 18 fraction digits and positive value). -/
def specParamsValid (actionId : Nat) (target content amount : String) : Bool :=
  match AVAILABLE_ACTIONS actionId with
  | none => false
  | some action =>
      (!action.requiresParams.contains "target" || isAddress target) &&
      (!action.requiresParams.contains "content" || !(content == "")) &&
      (!action.requiresParams.contains "amount" ||
        match fixedFromString amount 18 with
        | .ok n => decide (0 < n)
        | .error _ => false)

/-- An entry as handed to `addLog` (`Omit<ActionLog, "id" | "timestamp">`):
the id and timestamp are added inside `addLog`. -/
structure LogRecord where
  name : String
  status : String
  message : String
  txHash : Option String := none
deriving DecidableEq, Repr

/-- The log entries one `fetchMetrics` attempt appends, in order: the pending entry,
then the success entry naming the loaded profile or the failure entry carrying the
error message. -/
def fetchMetricsLogs (outcome : Except String String) : List LogRecord :=
  ⟨"Fetch Metrics", "pending", "Loading profile...", none⟩ ::
  (match outcome with
   | .ok profileName => [⟨"Fetch Metrics", "success", "Loaded " ++ profileName, none⟩]
   | .error m => [⟨"Fetch Metrics", "failed", m, none⟩])

/-- The log entries one `getRecom` attempt appends, in order. -/
def recommendLogs (outcome : Except String String) : List LogRecord :=
  ⟨"Recommend", "pending", "Agent thinking...", none⟩ ::
  (match outcome with
   | .ok actionName => [⟨"Recommend", "success", actionName, none⟩]
   | .error m => [⟨"Recommend", "failed", m, none⟩])

/-- The log entries one `execAction` attempt appends, in order: the pending entry
naming the action, then exactly one terminal entry — validation throws and network
errors are caught and logged as failed, a response logs success with the returned
transaction hash. `net` is the outcome of the `axios.post` call when it is reached. -/
def execActionLogs (address : String) (actionId : Nat) (target content amount : String)
    (net : Except String (Option String)) (action : ActionSpec) : List LogRecord :=
  ⟨"Execute", "pending", action.name, none⟩ ::
  (match buildPayload address actionId target content amount with
   | .error e => [⟨"Execute", "failed", e, none⟩]
   | .ok _ =>
      match net with
      | .error m => [⟨"Execute", "failed", m, none⟩]
      | .ok tx => [⟨"Execute", "success", action.name ++ " done", tx⟩])

/-- A log record is terminal when its status is success or failed (not pending). -/
def isTerminal (r : LogRecord) : Bool := r.status == "success" || r.status == "failed"

/-! ## Policy selection (spec-modelled)

The DQN policy backend (`backend/rl_agent`, Python) is not part of the repository
snapshot; only its Dockerfile, its HTTP callers and the README describe it. The
selection procedure is therefore modelled from the specification text (§4.2).
-/

/-- A 3-dimensional observation (normalized followers, posts, engagement). -/
def obsValid (o : ℚ × ℚ × ℚ) : Prop :=
  0 ≤ o.1 ∧ o.1 ≤ 1 ∧ 0 ≤ o.2.1 ∧ o.2.1 ≤ 1 ∧ 0 ≤ o.2.2 ∧ o.2.2 ≤ 1

instance (o : ℚ × ℚ × ℚ) : Decidable (obsValid o) := by
  unfold obsValid; infer_instance

/-- Modelled from the spec: greedy selection over the 3-action value function — the
action with the highest estimated value, ties broken by the lowest action id. The
left-to-right scan keeps the incumbent on ties, which is exactly the lowest-id rule. -/
def greedySelect (q : Nat → ℚ) : Nat :=
  if q (if q 0 < q 1 then 1 else 0) < q 2 then 2 else if q 0 < q 1 then 1 else 0

/-- Modelled from the spec (§4.2): `PolicySession.selectAction(observation, explore)`.
`qf` is the loaded value function of the policy artifact; in training mode an
epsilon-greedy draw (`u` the uniform sample, `r` the random action pick) may
override the greedy choice, in serving mode (`explore = false`) selection is purely
greedy. -/
def selectAction (qf : ℚ × ℚ × ℚ → Nat → ℚ) (obs : ℚ × ℚ × ℚ) (explore : Bool)
    (eps u : ℚ) (r : Nat) : Nat :=
  if explore ∧ u < eps then r % 3 else greedySelect (qf obs)

/-! ## Action executor retry loop (spec-modelled)

The backend Action Executor (`/execute-action`, Python) is not part of the
repository snapshot; its state machine and retry bound are modelled from the
specification text (§4.5 and §7).
-/

/-- What the network does with one submission attempt: rejection before inclusion
(nonce or gas failure), inclusion with a successful receipt, or inclusion with a
reverted receipt. -/
inductive SubmitOutcome where
  | transientReject
  | includedOk (txHash : String)
  | includedRevert (reason : String)
deriving DecidableEq, Repr

/-- Terminal result of one execute request. -/
inductive ExecResult where
  | confirmed (txHash : String)
  | failedSubmission
  | failedReverted (reason : String)
deriving DecidableEq, Repr

/-- Modelled from the spec: the configured retry bound defaults to 3 attempts. -/
def defaultRetryBound : Nat := 3

/-- Modelled from the spec (§4.5): the submission loop. `outcomes k` is what the
network does with submission attempt `k` (0-based); `fuel` is the remaining attempt
budget and `made` counts attempts already made. Inclusion — confirmed or reverted —
stops the loop immediately; only transient pre-inclusion rejections are retried;
an exhausted budget is a `SubmissionError`. Returns the result together with the
total number of submission attempts made. -/
def executeAttempts (outcomes : Nat → SubmitOutcome) : Nat → Nat → ExecResult × Nat
  | 0, made => (.failedSubmission, made)
  | fuel + 1, made =>
      match outcomes made with
      | .includedOk h => (.confirmed h, made + 1)
      | .includedRevert r => (.failedReverted r, made + 1)
      | .transientReject => executeAttempts outcomes fuel (made + 1)

/-- Modelled from the spec: one execute request with a configured attempt bound. -/
def executeRequest (outcomes : Nat → SubmitOutcome) (bound : Nat) : ExecResult × Nat :=
  executeAttempts outcomes bound 0

/-! ## BadgeNFT contract (`contracts/BadgeNFT.sol`) -/

/-- The LSP4/LSP8 zero address. -/
def zeroAddress : String := "0x0000000000000000000000000000000000000000"

/-- Token-ownership state of the LSP8 badge contract: tokenId (bytes32, as `Nat`)
to owner address. -/
structure LSP8State where
  tokenOwners : List (Nat × String)
deriving DecidableEq, Repr

/-- Owner recorded for a token id, if any. -/
def lookupOwner (st : LSP8State) (tokenId : Nat) : Option String :=
  (st.tokenOwners.find? (fun p => p.1 == tokenId)).map (·.2)

/-- Modelled from the LSP8 library (an external dependency, consumed by
`BadgeNFT.sol` via inheritance): `_mint` reverts when `to` is the zero address or
the token id is already minted, and otherwise records `to` as the owner of the
token. The `force` and `data` arguments only drive receiver hooks, outside this
state model. -/
def LSP8mintInternal (toAddr : String) (tokenId : Nat) (force : Bool) (dta : List Nat)
    (st : LSP8State) : Except String LSP8State :=
  if toAddr = zeroAddress then .error "LSP8CannotSendToAddressZero"
  else if (lookupOwner st tokenId).isSome then .error "LSP8TokenIdAlreadyMinted"
  else .ok ⟨(tokenId, toAddr) :: st.tokenOwners⟩

/-- `BadgeNFT.mint` from `contracts/BadgeNFT.sol`: an external function that passes
its arguments straight to `_mint`. The access-control check exists only as a source
comment; the body performs none, so the caller is irrelevant. -/
def BadgeNFTmint (caller toAddr : String) (tokenId : Nat) (force : Bool) (dta : List Nat)
    (st : LSP8State) : Except String LSP8State :=
  LSP8mintInternal toAddr tokenId force dta st

/-! ## Concrete inputs used by counterexamples and witnesses -/

/-- A well-formed all-lowercase target address. -/
def sampleTarget : String := "0x1111111111111111111111111111111111111111"

/-- A sample universal-profile address for payloads. -/
def sampleUP : String := "0xaaaaaaaaaaaaaaaaaaaaaaaaaaaaaaaaaaaaaaaa"

/-- Chain data with two issued assets, used by the metrics counterexample. -/
def sampleChain : ChainData := ⟨some ["0xasset1", "0xasset2"], some "Alice"⟩

/-- A network oracle that rejects every submission before inclusion. -/
def allTransient : Nat → SubmitOutcome := fun _ => .transientReject

/-- A network oracle that confirms the first submission. -/
def firstConfirms : Nat → SubmitOutcome := fun k =>
  if k == 0 then .includedOk "0xdeadbeef" else .transientReject

/-- A network oracle that reverts the first submission after inclusion. -/
def firstReverts : Nat → SubmitOutcome := fun k =>
  if k == 0 then .includedRevert "NotAuthorised" else .transientReject

/-- An empty badge-token state. -/
def emptyLSP8 : LSP8State := ⟨[]⟩

/-- A sample value function favoring action 1 (the spec end-to-end scenario). -/
def qf0 : ℚ × ℚ × ℚ → Nat → ℚ := fun _ n => if n == 1 then 5 else 1

/-- A sample log entry. -/
def sampleEntry : ActionLogEntry :=
  ⟨"id-1", 1700000000, "Execute", "pending", "Reward Follower", none⟩

/-- A second sample log entry. -/
def sampleEntry2 : ActionLogEntry :=
  ⟨"id-2", 1700000100, "Execute", "success", "Reward Follower done", some "0xabc"⟩

/-! ## Theorems -/

/-- C4: The action space is exactly the enumerated table with ordinal ids 0, 1, 2
mapped to Make Post, Follow Profile and Reward Follower, with required parameter
sets content / target / target-and-amount; in particular id 1 maps to Follow
Profile, and no other id is in the table. -/
theorem action_table_spec :
    AVAILABLE_ACTIONS 0 = some ⟨"Make Post", ["content"]⟩ ∧
    AVAILABLE_ACTIONS 1 = some ⟨"Follow Profile", ["target"]⟩ ∧
    AVAILABLE_ACTIONS 2 = some ⟨"Reward Follower", ["target", "amount"]⟩ ∧
    ∀ n : Nat, (AVAILABLE_ACTIONS n).isSome = decide (n < 3) := by
  refine ⟨rfl, rfl, rfl, fun n => ?_⟩
  match n with
  | 0 => rfl
  | 1 => rfl
  | 2 => rfl
  | m + 3 =>
      have h : ¬ (m + 3 < 3) := by omega
      simp [AVAILABLE_ACTIONS, h]

/-- C7: the frontend activity log update is an append-only bounded buffer — the new
entry is prepended, the surviving old entries are exactly the newest 49 previous
entries unchanged, the length never exceeds the cap of 50, and below the cap no
entry is dropped at all. -/
theorem addLog_ring_buffer (e : ActionLogEntry) (l : List ActionLogEntry) :
    (addLog e l).length ≤ 50 ∧
    (addLog e l).head? = some e ∧
    (addLog e l).tail = l.take 49 ∧
    (l.length ≤ 49 → addLog e l = e :: l) := by
  have hrw : addLog e l = e :: l.take 49 := by
    simp [addLog, List.take_succ_cons]
  refine ⟨?_, ?_, ?_, ?_⟩
  · rw [hrw]
    simp only [List.length_cons, List.length_take]
    omega
  · rw [hrw]; rfl
  · rw [hrw]; rfl
  · intro hlen
    rw [hrw, List.take_of_length_le hlen]

/-- C7 witness: the ring-buffer facts at a concrete entry and log. -/
theorem addLog_ring_buffer_witness :
    addLog sampleEntry [sampleEntry2] = [sampleEntry, sampleEntry2] ∧
    (addLog sampleEntry [sampleEntry2]).length ≤ 50 :=
  ⟨(addLog_ring_buffer sampleEntry [sampleEntry2]).2.2.2 (by decide),
   (addLog_ring_buffer sampleEntry [sampleEntry2]).1⟩

/-- C9: BadgeNFT.mint performs no access control — its result is independent of the
caller, equals the underlying LSP8 mint on the same arguments, and for any fresh
token and non-zero recipient any caller mints successfully. -/
theorem badge_mint_no_access_control (caller caller2 toAddr : String) (tokenId : Nat)
    (force : Bool) (dta : List Nat) (st : LSP8State) :
    BadgeNFTmint caller toAddr tokenId force dta st =
      BadgeNFTmint caller2 toAddr tokenId force dta st ∧
    BadgeNFTmint caller toAddr tokenId force dta st =
      LSP8mintInternal toAddr tokenId force dta st ∧
    (toAddr ≠ zeroAddress → lookupOwner st tokenId = none →
      BadgeNFTmint caller toAddr tokenId force dta st =
        .ok ⟨(tokenId, toAddr) :: st.tokenOwners⟩) := by
  refine ⟨rfl, rfl, fun h1 h2 => ?_⟩
  simp [BadgeNFTmint, LSP8mintInternal, h1, h2]

/-- C9 witness: an arbitrary non-owner caller mints token 7 to a recipient on the
empty state. -/
theorem badge_mint_no_access_control_witness :
    BadgeNFTmint "0xintruder" sampleTarget 7 true [] emptyLSP8 =
      .ok ⟨[(7, sampleTarget)]⟩ :=
  (badge_mint_no_access_control "0xintruder" "0xowner" sampleTarget 7 true [] emptyLSP8).2.2
    (by decide) rfl

/-- Greedy selection returns an id below 3, never returns a strictly worse action,
and ties always resolve to the lowest id (every action with a strictly smaller id
than the chosen one has strictly smaller value). -/
theorem greedySelect_spec (q : Nat → ℚ) :
    greedySelect q < 3 ∧
    (∀ j, j < 3 → q j ≤ q (greedySelect q)) ∧
    (∀ j, j < greedySelect q → q j < q (greedySelect q)) := by
  unfold greedySelect
  by_cases h1 : q 0 < q 1
  · simp only [if_pos h1]
    by_cases h2 : q 1 < q 2
    · simp only [if_pos h2]
      refine ⟨by omega, fun j hj => ?_, fun j hj => ?_⟩ <;> interval_cases j <;> linarith
    · simp only [if_neg h2]
      refine ⟨by omega, fun j hj => ?_, fun j hj => ?_⟩ <;> interval_cases j <;> linarith
  · simp only [if_neg h1]
    by_cases h2 : q 0 < q 2
    · simp only [if_pos h2]
      refine ⟨by omega, fun j hj => ?_, fun j hj => ?_⟩ <;> interval_cases j <;> linarith
    · simp only [if_neg h2]
      refine ⟨by omega, fun j hj => ?_, fun j hj => ?_⟩ <;> interval_cases j <;> linarith

/-- C5: in serving mode (explore = false) action selection over any observation in
the unit box is deterministic — independent of the exploration state and random
draws — returns an id in 0..2, picks an action of maximal estimated value, and
breaks ties toward the lowest action id. -/
theorem selectAction_serving_greedy (qf : ℚ × ℚ × ℚ → Nat → ℚ) (obs : ℚ × ℚ × ℚ)
    (eps u : ℚ) (r : Nat) (hobs : obsValid obs) :
    selectAction qf obs false eps u r < 3 ∧
    (∀ eps2 u2 : ℚ, ∀ r2 : Nat,
      selectAction qf obs false eps u r = selectAction qf obs false eps2 u2 r2) ∧
    (∀ j, j < 3 → qf obs j ≤ qf obs (selectAction qf obs false eps u r)) ∧
    (∀ j, j < selectAction qf obs false eps u r →
      qf obs j < qf obs (selectAction qf obs false eps u r)) := by
  have hsel : ∀ e2 u2 : ℚ, ∀ r2 : Nat,
      selectAction qf obs false e2 u2 r2 = greedySelect (qf obs) := by
    intro e2 u2 r2
    simp [selectAction]
  obtain ⟨hlt, hmax, htie⟩ := greedySelect_spec (qf obs)
  rw [hsel eps u r]
  exact ⟨hlt, fun e2 u2 r2 => (hsel e2 u2 r2).symm, hmax, htie⟩

/-- C5 witness: the spec scenario — observation (0.2, 0.1, 0.05) under a value
function favoring action 1 — selects an id below 3, optimal and tie-minimal. -/
theorem selectAction_serving_greedy_witness :
    selectAction qf0 (1/5, 1/10, 1/20) false 0 0 0 < 3 ∧
    qf0 (1/5, 1/10, 1/20) 0 ≤ qf0 (1/5, 1/10, 1/20) (selectAction qf0 (1/5, 1/10, 1/20) false 0 0 0) :=
  ⟨(selectAction_serving_greedy qf0 (1/5, 1/10, 1/20) 0 0 0 (by norm_num [obsValid])).1,
   (selectAction_serving_greedy qf0 (1/5, 1/10, 1/20) 0 0 0
     (by norm_num [obsValid])).2.2.1 0 (by norm_num)⟩

/-- Skipping k transient rejections consumes k fuel and makes k attempts. -/
theorem executeAttempts_skip (outcomes : Nat → SubmitOutcome) :
    ∀ k fuel made, (∀ j, j < k → outcomes (made + j) = .transientReject) →
      executeAttempts outcomes fuel (made + k) = executeAttempts outcomes (k + fuel) made := by
  intro k
  induction k with
  | zero => intro fuel made _; simp
  | succ n ih =>
      intro fuel made htrans
      have h0 : outcomes made = .transientReject := by
        have := htrans 0 (by omega)
        simpa using this
      have hshift : ∀ j, j < n → outcomes (made + 1 + j) = .transientReject := by
        intro j hj
        have := htrans (j + 1) (by omega)
        simpa [Nat.add_assoc, Nat.add_comm 1 j] using this
      have hrec := ih fuel (made + 1) hshift
      calc executeAttempts outcomes fuel (made + (n + 1))
          = executeAttempts outcomes fuel (made + 1 + n) := by ring_nf
        _ = executeAttempts outcomes (n + fuel) (made + 1) := hrec
        _ = executeAttempts outcomes (n + 1 + fuel) made := by
              rw [Nat.add_right_comm n 1 fuel]
              simp [executeAttempts, h0]

/-- C6: the executor retries only transient pre-inclusion rejections, up to the
configured bound which defaults to 3: if every attempt up to the bound is rejected
before inclusion the request fails with SubmissionError after exactly `bound`
submission attempts; if attempt k is included — confirmed or reverted — the loop
stops at exactly k + 1 attempts, so no action is retried after Confirmed or after
ExecutionReverted. -/
theorem execute_retry_policy (outcomes : Nat → SubmitOutcome) (bound k : Nat)
    (h r : String) :
    defaultRetryBound = 3 ∧
    ((∀ j, j < bound → outcomes j = .transientReject) →
      executeRequest outcomes bound = (.failedSubmission, bound)) ∧
    ((∀ j, j < k → outcomes j = .transientReject) → k < bound →
      outcomes k = .includedOk h →
      executeRequest outcomes bound = (.confirmed h, k + 1)) ∧
    ((∀ j, j < k → outcomes j = .transientReject) → k < bound →
      outcomes k = .includedRevert r →
      executeRequest outcomes bound = (.failedReverted r, k + 1)) := by
  have hzero : ∀ m, (∀ j, j < m → outcomes j = .transientReject) →
      (∀ j, j < m → outcomes (0 + j) = .transientReject) := by
    intro m hm j hj; simpa using hm j hj
  refine ⟨rfl, fun htrans => ?_, fun htrans hk hok => ?_, fun htrans hk hrev => ?_⟩
  · have := (executeAttempts_skip outcomes bound 0 0 (hzero bound htrans)).symm
    simp only [Nat.zero_add, Nat.add_zero] at this
    simpa [executeRequest] using this
  · obtain ⟨m, hm⟩ : ∃ m, bound = k + (m + 1) := ⟨bound - k - 1, by omega⟩
    have hskip := (executeAttempts_skip outcomes k (m + 1) 0 (hzero k htrans)).symm
    simp only [Nat.zero_add] at hskip
    rw [executeRequest, hm, hskip]
    simp [executeAttempts, hok]
  · obtain ⟨m, hm⟩ : ∃ m, bound = k + (m + 1) := ⟨bound - k - 1, by omega⟩
    have hskip := (executeAttempts_skip outcomes k (m + 1) 0 (hzero k htrans)).symm
    simp only [Nat.zero_add] at hskip
    rw [executeRequest, hm, hskip]
    simp [executeAttempts, hrev]

/-- C6 witness: three injected transient failures yield SubmissionError after
exactly 3 attempts; a first-submission confirmation or revert stops after exactly
one attempt. -/
theorem execute_retry_policy_witness :
    executeRequest allTransient 3 = (.failedSubmission, 3) ∧
    executeRequest firstConfirms 3 = (.confirmed "0xdeadbeef", 1) ∧
    executeRequest firstReverts 3 = (.failedReverted "NotAuthorised", 1) :=
  ⟨(execute_retry_policy allTransient 3 0 "" "").2.1 (fun _ _ => rfl),
   (execute_retry_policy firstConfirms 3 0 "0xdeadbeef" "").2.2.1
     (fun j hj => absurd hj (Nat.not_lt_zero j)) (by decide) rfl,
   (execute_retry_policy firstReverts 3 0 "" "NotAuthorised").2.2.2
     (fun j hj => absurd hj (Nat.not_lt_zero j)) (by decide) rfl⟩

/-- C8: every metrics-fetch, recommendation, or execution attempt appends exactly
one terminal (success or failed) log entry — the success path and every failure
path (validation throw, network error) alike — so no attempt ends unlogged. -/
theorem one_terminal_log_per_attempt :
    (∀ o : Except String String, (fetchMetricsLogs o).countP isTerminal = 1) ∧
    (∀ o : Except String String, (recommendLogs o).countP isTerminal = 1) ∧
    (∀ (addr : String) (actionId : Nat) (target content amount : String)
      (net : Except String (Option String)) (action : ActionSpec),
      AVAILABLE_ACTIONS actionId = some action →
      (execActionLogs addr actionId target content amount net action).countP isTerminal
        = 1) := by
  refine ⟨fun o => ?_, fun o => ?_,
    fun addr actionId target content amount net action _ => ?_⟩
  · cases o <;> rfl
  · cases o <;> rfl
  · unfold execActionLogs
    cases hb : buildPayload addr actionId target content amount with
    | error e => rfl
    | ok p => cases net <;> rfl

/-- C8 witness: one successful execute attempt and one failed fetch attempt each
log exactly one terminal entry. -/
theorem one_terminal_log_per_attempt_witness :
    (execActionLogs sampleUP 0 "" "hello" "1" (.ok (some "0xabc"))
        ⟨"Make Post", ["content"]⟩).countP isTerminal = 1 ∧
    (fetchMetricsLogs (.error "network down")).countP isTerminal = 1 :=
  ⟨one_terminal_log_per_attempt.2.2 sampleUP 0 "" "hello" "1" (.ok (some "0xabc"))
      ⟨"Make Post", ["content"]⟩ rfl,
   one_terminal_log_per_attempt.1 (.error "network down")⟩

/-- C3 counterexample: the metrics are not a function of on-chain state — two
fetches over identical chain data but different pseudo-random draws produce
different metrics (followers 0 versus 250), so followers are synthesized, not read. -/
theorem metrics_counterexample :
    fetchMetricsModel sampleChain 0 0 ≠ fetchMetricsModel sampleChain (1/2) 0 := by
  intro h
  have hf := congrArg ProfileMetrics.followers h
  norm_num [fetchMetricsModel] at hf
  omega

/-- C3 amended: only the posts count is read from on-chain state (the issued-assets
list); the follower count is synthesized from the first random draw alone and the
engagement rate from the second alone, each independent of chain state; the
snapshot is rebuilt from its inputs on every call (no cache). -/
theorem metrics_sources_amended (c c2 : ChainData) (r1 r2 s1 s2 : ℚ)
    (hassets : c.assets = c2.assets) :
    (fetchMetricsModel c r1 r2).postsCount = (fetchMetricsModel c2 s1 s2).postsCount ∧
    (fetchMetricsModel c r1 r2).followers = (fetchMetricsModel c2 r1 s2).followers ∧
    (fetchMetricsModel c r1 r2).engagementRate
      = (fetchMetricsModel c2 s1 r2).engagementRate := by
  refine ⟨?_, rfl, rfl⟩
  simp [fetchMetricsModel, hassets]

/-- C3 amended witness: concrete chain data and draws. -/
theorem metrics_sources_amended_witness :
    (fetchMetricsModel sampleChain 0 0).postsCount
      = (fetchMetricsModel ⟨sampleChain.assets, none⟩ 1 1).postsCount :=
  (metrics_sources_amended sampleChain ⟨sampleChain.assets, none⟩ 0 0 1 1 rfl).1

/-- The frontend amount path: `parseUnits(amount, "18")` fails with `invalid unit`
for every amount string, because the ethers v6 string-unit overload only accepts
the seven unit names. -/
theorem parseUnits_string18 (v : String) : parseUnits v "18" = .error "invalid unit" := rfl

/-- Make Post requests succeed validation exactly when the content is non-empty. -/
theorem buildPayload_post (addr target content amount : String) :
    (buildPayload addr 0 target content amount).isOk = !(content == "") := by
  by_cases hc : content = ""
  · subst hc; rfl
  · have h1 : (content == "") = false := beq_eq_false_iff_ne.mpr hc
    simp [buildPayload, AVAILABLE_ACTIONS, hc, h1, Except.isOk, Except.bind,
      Except.map, Except.toBool]

/-- Follow requests succeed validation exactly when the target passes isAddress. -/
theorem buildPayload_follow (addr target content amount : String) :
    (buildPayload addr 1 target content amount).isOk = isAddress target := by
  cases ht : isAddress target <;>
    simp [buildPayload, AVAILABLE_ACTIONS, ht, Except.isOk, Except.bind, Except.map,
      Except.toBool]

/-- Reward requests never pass validation: after the target check the amount is
fed to `parseUnits(amount, "18")`, which always fails. -/
theorem buildPayload_reward_fails (addr target content amount : String) :
    (buildPayload addr 2 target content amount).isOk = false := by
  cases ht : isAddress target <;>
    simp [buildPayload, AVAILABLE_ACTIONS, ht, parseUnits_string18, Except.isOk,
      Except.bind, Except.map, Except.toBool]

/-- Post validity per the §3 spec invariant reduces to the content check. -/
theorem specParamsValid_post (target content amount : String) :
    specParamsValid 0 target content amount = !(content == "") := by
  simp [specParamsValid, AVAILABLE_ACTIONS]

/-- Follow validity per the §3 spec invariant reduces to the address check. -/
theorem specParamsValid_follow (target content amount : String) :
    specParamsValid 1 target content amount = isAddress target := by
  simp [specParamsValid, AVAILABLE_ACTIONS]

/-- C1 counterexample: a Reward request whose parameters all satisfy the claimed
validation predicate — address-shaped target, positive integer-denominated amount
"1" — is nevertheless rejected client-side and never submitted, so the code does
not implement the claimed parameter validation. -/
theorem exec_validation_counterexample :
    specParamsValid 2 sampleTarget "" "1" = true ∧
    (buildPayload sampleUP 2 sampleTarget "" "1").isOk = false ∧
    execActionRequests sampleUP 2 sampleTarget "" "1" = [] := by
  refine ⟨by decide, by decide, by decide⟩

/-- C1 amended: the target and content checks behave exactly as claimed — Post
succeeds iff the content is non-empty, Follow iff the target is address-shaped —
and any validation failure aborts with a thrown error before the request is sent
(zero submissions); every spec-invalid request is rejected. The amount, however, is
never checked for positivity: it is passed to `parseUnits(amount, "18")`, which
under ethers v6 rejects every amount string, so every Reward request fails
client-side before submission. -/
theorem exec_validation_amended (addr target content amount : String) :
    ((buildPayload addr 0 target content amount).isOk = !(content == "")) ∧
    ((buildPayload addr 1 target content amount).isOk = isAddress target) ∧
    ((buildPayload addr 2 target content amount).isOk = false) ∧
    (∀ actionId : Nat, (buildPayload addr actionId target content amount).isOk = false →
      execActionRequests addr actionId target content amount = []) ∧
    (∀ actionId : Nat, specParamsValid actionId target content amount = false →
      (buildPayload addr actionId target content amount).isOk = false) := by
  refine ⟨buildPayload_post addr target content amount,
    buildPayload_follow addr target content amount,
    buildPayload_reward_fails addr target content amount,
    fun actionId h => ?_, fun actionId h => ?_⟩
  · unfold execActionRequests
    cases hb : buildPayload addr actionId target content amount with
    | error e => rfl
    | ok p => rw [hb] at h; simp [Except.isOk, Except.toBool] at h
  · match actionId with
    | 0 => rw [buildPayload_post]; rw [specParamsValid_post] at h; exact h
    | 1 => rw [buildPayload_follow]; rw [specParamsValid_follow] at h; exact h
    | 2 => exact buildPayload_reward_fails addr target content amount
    | n + 3 => rfl

/-- C1 amended witness: a fully valid Reward request is rejected with zero
submissions, while a Follow request with an address-shaped target passes. -/
theorem exec_validation_amended_witness :
    (buildPayload sampleUP 2 sampleTarget "hi" "1").isOk = false ∧
    execActionRequests sampleUP 2 sampleTarget "hi" "1" = [] ∧
    (buildPayload sampleUP 1 sampleTarget "" "").isOk = isAddress sampleTarget :=
  ⟨(exec_validation_amended sampleUP sampleTarget "hi" "1").2.2.1,
   (exec_validation_amended sampleUP sampleTarget "hi" "1").2.2.2.1 2
     ((exec_validation_amended sampleUP sampleTarget "hi" "1").2.2.1),
   (exec_validation_amended sampleUP sampleTarget "" "").2.1⟩

set_option maxRecDepth 2000000 in
/-- C2: the Permission Encoder does derive the selector input deterministically by
hashing the canonical signature string (never accepting raw selector bytes) — the
intended 4-byte values are the keccak prefixes 0x760d9bba and 0x511b6952 — but the
code as written wraps the 10-character hash slice in an ABI `bytes4` decode, which
requires a full 32-byte word and therefore fails with `data out-of-bounds` on both
signatures instead of producing the selectors, so the configuration script can
never grant them. -/
theorem selector_derivation_bug :
    tokenTransferSelector = .error "data out-of-bounds" ∧
    nftTransferSelector = .error "data out-of-bounds" ∧
    intendedSelector tokenTransferSignature = [0x76, 0x0d, 0x9b, 0xba] ∧
    intendedSelector nftTransferSignature = [0x51, 0x1b, 0x69, 0x52] :=
  ⟨rfl, rfl, rfl, rfl⟩

/-- C10: the reward amount is never scaled and submitted at all — under ethers v6
`parseUnits(amount, "18")` rejects every amount string with `invalid unit` (string
units must be one of the seven unit names), so the entered "1" never becomes a
`reward_amount_wei` field and the request is never sent; the conversion the code
comments intend, a fixed-point parse at 18 decimals, would indeed map "1" to
1000000000000000000 wei. -/
theorem reward_amount_unit_bug :
    parseUnits "1" "18" = .error "invalid unit" ∧
    (∀ v : String, parseUnits v "18" = .error "invalid unit") ∧
    fixedFromString "1" 18 = .ok 1000000000000000000 ∧
    execActionRequests sampleUP 2 sampleTarget "" "1" = [] :=
  ⟨rfl, fun v => parseUnits_string18 v, rfl, by decide⟩
